import Mathlib

/-!
Shallow embedding of `examples/pervasive/modules/archive/densenet_nonorm.py`.

Tensors are modelled as total functions from four `Nat` indices to `ℚ`,
paired with an explicit channel count.  The convention is:

* a tensor in layout `(B, Tt, Ts, C)` is a function `b t s c ↦ value`;
* a tensor in layout `(B, C, Tt, Ts)` is a function `b c t s ↦ value`;
* the `Nat` component of a `CTensor` records the extent of the channel
  dimension (the last dimension in `(B, Tt, Ts, C)` layout, dimension 1 in
  `(B, C, Tt, Ts)` layout); the other extents are passed explicitly to the
  operations that reduce over them.

Random weights (Xavier-initialised linear and convolution kernels) are
taken as parameters, since only their shapes are determined by the code.
-/

/-- Raw 4-dimensional tensor data: a value for every 4-tuple of indices. -/
def T4 : Type := Nat → Nat → Nat → Nat → ℚ

/-- A tensor together with the extent of its channel dimension. -/
def CTensor : Type := Nat × T4

/-- Channel extent of a tensor. -/
def channels (x : CTensor) : Nat := x.1

/-- Data of a tensor. -/
def data (x : CTensor) : T4 := x.2

/-- `torch.cat([x, y], dim=1)` for channel-first tensors: indices below
`x.1` read from `x`, the rest read from `y` shifted down. -/
def cat1 (x y : CTensor) : CTensor :=
  (x.1 + y.1, fun b c t s => if c < x.1 then x.2 b c t s else y.2 b (c - x.1) t s)

/-- `torch.cat(features, dim=1)` over a list of channel-first tensors.
`torch.cat` on a singleton returns the tensor itself. -/
def catAll : List CTensor → CTensor
  | [] => (0, fun _ _ _ _ => 0)
  | [x] => x
  | x :: y :: rest => cat1 x (catAll (y :: rest))

/-- `F.relu`, elementwise on the data. -/
def relu4 (f : T4) : T4 := fun b c t s => max 0 (f b c t s)

/-- `F.relu` on a channel-tagged tensor. -/
def reluC (x : CTensor) : CTensor := (x.1, relu4 x.2)

/-- `x.permute(0, 3, 1, 2)`: from `(B, Tt, Ts, C)` layout to
`(B, C, Tt, Ts)` layout.  The channel count is unchanged. -/
def permute0312 (x : CTensor) : CTensor :=
  (x.1, fun b c t s => x.2 b t s c)

/-- `x.permute(0, 2, 3, 1)`: from `(B, C, Tt, Ts)` layout back to
`(B, Tt, Ts, C)` layout. -/
def permute0231 (x : CTensor) : CTensor :=
  (x.1, fun b t s c => x.2 b c t s)

/-- A boolean mask over two indices (batch and one time dimension),
modelling the `(B, Ts)` encoder mask or `(B, Tt)` decoder mask. -/
def Mask : Type := Nat → Nat → Bool

/-- `x.masked_fill(encoder_mask.unsqueeze(1).unsqueeze(1), 0)`: the mask
`(B, Ts)` broadcasts over the channel and target-time dimensions. -/
def maskedFillEnc (x : CTensor) (m : Mask) : CTensor :=
  (x.1, fun b c t s => if m b s then 0 else x.2 b c t s)

/-- `x.masked_fill(decoder_mask.unsqueeze(1).unsqueeze(-1), 0)`: the mask
`(B, Tt)` broadcasts over the channel and source-time dimensions. -/
def maskedFillDec (x : CTensor) (m : Mask) : CTensor :=
  (x.1, fun b c t s => if m b t then 0 else x.2 b c t s)

/-- Opaque incremental decoding state threaded through the modules
(`incremental_state` in the Python code; only ever passed along). -/
def IncrementalState : Type := Option Unit

/-- The hyper-parameters read from `args` by the two module classes. -/
structure Args where
  divide_channels : Nat
  num_layers : Nat
  growth_rate : Nat
  memory_efficient : Bool
  convolution_dropout : ℚ
  bn_size : Nat
  kernel_size : Nat
  source_dilation : Nat
  target_dilation : Nat

/-- `nn.Conv2d(in, out, kernel_size=1, stride=1, bias=False)`: a 1x1
convolution is a per-position linear map on channels. -/
structure Conv1x1 where
  in_channels : Nat
  out_channels : Nat
  weight : Nat → Nat → ℚ

/-- Applying the 1x1 convolution: output channel `i` is the weighted sum
of the input channels at the same spatial position. -/
def Conv1x1.apply (c : Conv1x1) (x : CTensor) : CTensor :=
  (c.out_channels,
   fun b i t s => ∑ j ∈ Finset.range c.in_channels, c.weight i j * x.2 b j t s)

/-- Modelled from the spec: `MaskedConvolution` is an external collaborator
with a fixed call contract — it receives a `(B, C, Tt, Ts)` tensor and the
incremental state and returns a `(B, out_channels, Tt, Ts)` tensor.  Its
kernel computation is opaque, so it is carried as an arbitrary function;
the constructor arguments fix the channel counts. -/
structure MaskedConvolution where
  in_channels : Nat
  out_channels : Nat
  f : T4 → IncrementalState → T4

/-- Calling the masked convolution: the data is transformed by the opaque
kernel and the channel count becomes `out_channels`. -/
def MaskedConvolution.apply (m : MaskedConvolution) (x : CTensor)
    (inc : IncrementalState) : CTensor :=
  (m.out_channels, m.f x.2 inc)

/-- Modelled from the spec: `torch.utils.checkpoint.checkpoint(f, *inputs)`
recomputes intermediate activations during the backward pass instead of
storing them; its documented contract is that the forward value is exactly
`f(*inputs)`. -/
def cp_checkpoint (f : List CTensor → CTensor) (inputs : List CTensor) : CTensor :=
  f inputs

/-- `F.dropout` is randomised; it is modelled as an opaque function of the
rate, the training flag and the data, passed in as a parameter. -/
def Dropout : Type := ℚ → Bool → T4 → T4

/-- `_DenseLayer`: its persistent fields after `__init__`. -/
structure DenseLayer where
  memory_efficient : Bool
  drop_rate : ℚ
  conv1 : Conv1x1
  mconv2 : MaskedConvolution

namespace DenseLayer

/-- `_DenseLayer.__init__(num_input_features, args)`: builds the 1x1
bottleneck convolution with `bn_size * growth_rate` output channels and
the spatial masked convolution producing `growth_rate` channels.  The
randomly initialised kernels are taken as parameters `w` and `mcf`. -/
def init (num_input_features : Nat) (args : Args)
    (w : Nat → Nat → ℚ) (mcf : T4 → IncrementalState → T4) : DenseLayer :=
  { memory_efficient := args.memory_efficient
    drop_rate := args.convolution_dropout
    conv1 := ⟨num_input_features, args.bn_size * args.growth_rate, w⟩
    mconv2 := ⟨args.bn_size * args.growth_rate, args.growth_rate, mcf⟩ }

/-- `_DenseLayer.bottleneck_function(*inputs)`:
`x = F.relu(torch.cat(inputs, 1)); x = self.conv1(x)`. -/
def bottleneck_function (L : DenseLayer) (inputs : List CTensor) : CTensor :=
  L.conv1.apply (reluC (catAll inputs))

/-- The masking step of `_DenseLayer.forward`: under `if self.training:`,
apply the encoder mask and then the decoder mask, each only when given. -/
def maskStep (training : Bool) (encoder_mask decoder_mask : Option Mask)
    (x : CTensor) : CTensor :=
  if training then
    let x :=
      match encoder_mask with
      | some m => maskedFillEnc x m
      | none => x
    match decoder_mask with
    | some m => maskedFillDec x m
    | none => x
  else x

/-- The dropout step of `_DenseLayer.forward`:
`if self.drop_rate: x = F.dropout(x, p=self.drop_rate, training=self.training)`. -/
def dropStep (L : DenseLayer) (fdrop : Dropout) (training : Bool)
    (x : CTensor) : CTensor :=
  if L.drop_rate ≠ 0 then (x.1, fdrop L.drop_rate training x.2) else x

/-- `_DenseLayer.forward(prev_features, encoder_mask, decoder_mask,
incremental_state)`.  `training` is the module-mode flag `self.training`;
`any_rg` is `any(f.requires_grad for f in prev_features)`; `fdrop` is the
(random) `F.dropout` function. -/
def forward (L : DenseLayer) (fdrop : Dropout) (training : Bool)
    (prev_features : List CTensor) (any_rg : Bool)
    (encoder_mask decoder_mask : Option Mask)
    (incremental_state : IncrementalState) : CTensor :=
  let x :=
    if L.memory_efficient && any_rg then
      cp_checkpoint L.bottleneck_function prev_features
    else
      L.bottleneck_function prev_features
  let x := reluC x
  let x := maskStep training encoder_mask decoder_mask x
  let x := L.mconv2.apply x incremental_state
  let x := L.dropStep fdrop training x
  x

/-- The masking step as the claim words it: zero out the masked positions
whenever a mask is provided, irrespective of the training mode. -/
def maskUncond (encoder_mask decoder_mask : Option Mask) (x : CTensor) : CTensor :=
  let x :=
    match encoder_mask with
    | some m => maskedFillEnc x m
    | none => x
  match decoder_mask with
  | some m => maskedFillDec x m
  | none => x

end DenseLayer

/-- `Linear(in_features, out_features)`: an `nn.Linear` whose weight is
Xavier-initialised (taken as a parameter) and whose bias is initialised to
zero by `nn.init.constant_(m.bias, 0.)`. -/
structure NNLinear where
  in_features : Nat
  out_features : Nat
  weight : Nat → Nat → ℚ
  bias : Nat → ℚ

/-- The `Linear` helper of the file, at construction time: the given
weight, a zero bias. -/
def Linear (in_features out_features : Nat) (w : Nat → Nat → ℚ) : NNLinear :=
  ⟨in_features, out_features, w, fun _ => 0⟩

/-- Applying `nn.Linear` to a `(B, Tt, Ts, C)` tensor acts on the last
(channel) dimension: `y_i = sum_j W i j * x_j + b_i`. -/
def NNLinear.apply (L : NNLinear) (x : CTensor) : CTensor :=
  (L.out_features,
   fun b t s i =>
     (∑ j ∈ Finset.range L.in_features, L.weight i j * x.2 b t s j) + L.bias i)

/-- `DenseNetNoNorm`: its persistent fields after `__init__`. -/
structure DenseNetNoNorm where
  reduce_channels : Option NNLinear
  dense_layers : List DenseLayer
  output_channels : Nat

namespace DenseNetNoNorm

/-- The construction loop of `DenseNetNoNorm.__init__`: starting from
`num_features`, append a `_DenseLayer(num_features, args)` and grow
`num_features` by `growth_rate`, `n` times; returns the layer list and the
final `num_features`.  `ws i` and `mcfs i` are the random kernels of the
`i`-th layer, with `i0` the index of the first layer still to build. -/
def buildLayers (args : Args) (ws : Nat → Nat → Nat → ℚ)
    (mcfs : Nat → T4 → IncrementalState → T4) :
    Nat → Nat → Nat → List DenseLayer × Nat
  | _, num_features, 0 => ([], num_features)
  | i0, num_features, n + 1 =>
    let L := DenseLayer.init num_features args (ws i0) (mcfs i0)
    let rest := buildLayers args ws mcfs (i0 + 1) (num_features + args.growth_rate) n
    (L :: rest.1, rest.2)

/-- `DenseNetNoNorm.__init__(num_init_features, args)`: optionally build
the channel-reducing linear map (iff `args.divide_channels > 1`), then the
dense layers, recording the final channel count in `output_channels`. -/
def init (num_init_features : Nat) (args : Args) (lw : Nat → Nat → ℚ)
    (ws : Nat → Nat → Nat → ℚ) (mcfs : Nat → T4 → IncrementalState → T4) :
    DenseNetNoNorm :=
  let num_features := num_init_features
  let reduce :=
    if args.divide_channels > 1 then
      some (Linear num_features (num_features / args.divide_channels) lw)
    else none
  let num_features := num_features / args.divide_channels
  let built := buildLayers args ws mcfs 0 num_features args.num_layers
  { reduce_channels := reduce
    dense_layers := built.1
    output_channels := built.2 }

/-- The accumulation loop of `DenseNetNoNorm.forward`: each layer is
called on the current feature list and its output is appended. -/
def denseLoop (fdrop : Dropout) (training : Bool) (any_rg : Bool)
    (encoder_mask decoder_mask : Option Mask)
    (incremental_state : IncrementalState) :
    List DenseLayer → List CTensor → List CTensor
  | [], features => features
  | L :: rest, features =>
    let x := L.forward fdrop training features any_rg
      encoder_mask decoder_mask incremental_state
    denseLoop fdrop training any_rg encoder_mask decoder_mask
      incremental_state rest (features ++ [x])

/-- The optional channel-reduction step of `DenseNetNoNorm.forward`:
`if self.reduce_channels is not None: x = self.reduce_channels(x)`. -/
def applyReduce (net : DenseNetNoNorm) (x : CTensor) : CTensor :=
  match net.reduce_channels with
  | some L => L.apply x
  | none => x

/-- `DenseNetNoNorm.forward(x, encoder_mask, decoder_mask,
incremental_state)`: optional channel reduction, permute to channel-first,
run the dense layers accumulating features, concatenate along channels,
permute back. -/
def forward (net : DenseNetNoNorm) (fdrop : Dropout) (training : Bool)
    (any_rg : Bool) (x : CTensor)
    (encoder_mask decoder_mask : Option Mask)
    (incremental_state : IncrementalState) : CTensor :=
  let x := net.applyReduce x
  let x := permute0312 x
  let features := [x]
  let features := denseLoop fdrop training any_rg encoder_mask decoder_mask
    incremental_state net.dense_layers features
  let x := catAll features
  let x := permute0231 x
  x

end DenseNetNoNorm

/-- `x.mean(1, keepdim=True)` on a `(B, C, Tt, Ts)` tensor with `C`
channels: the kept dimension has extent 1, so the result ignores its
channel index (this is exactly how it broadcasts). -/
def tmean1 (C : Nat) (x : T4) : T4 :=
  fun b _ t s => (∑ i ∈ Finset.range C, x b i t s) / (C : ℚ)

/-- `x.mean(0, keepdim=True)` over a batch of extent `B`. -/
def tmean0 (B : Nat) (x : T4) : T4 :=
  fun _ c t s => (∑ i ∈ Finset.range B, x i c t s) / (B : ℚ)

/-- `x.mean(2, keepdim=True)` over a target-time dimension of extent `T`. -/
def tmean2 (T : Nat) (x : T4) : T4 :=
  fun b c _ s => (∑ i ∈ Finset.range T, x b c i s) / (T : ℚ)

/-- `x.mean(-1, keepdim=True)` over a last dimension of extent `S`. -/
def tmeanLast (S : Nat) (x : T4) : T4 :=
  fun b c t _ => (∑ i ∈ Finset.range S, x b c t i) / (S : ℚ)

/-- `x.std(1, keepdim=True)` with `torch`'s default unbiased estimator
(`n - 1` in the denominator); `sq` is the square-root function. -/
def tstd1 (sq : ℚ → ℚ) (C : Nat) (x : T4) : T4 :=
  fun b _ t s =>
    sq ((∑ i ∈ Finset.range C, (x b i t s - tmean1 C x b 0 t s) ^ 2) / ((C : ℚ) - 1))

/-- `x.std(0, keepdim=True)`, unbiased, over a batch of extent `B`. -/
def tstd0 (sq : ℚ → ℚ) (B : Nat) (x : T4) : T4 :=
  fun _ c t s =>
    sq ((∑ i ∈ Finset.range B, (x i c t s - tmean0 B x 0 c t s) ^ 2) / ((B : ℚ) - 1))

/-- `x.std(-1, keepdim=True)`, unbiased, over a last dimension of extent
`S`. -/
def tstdLast (sq : ℚ → ℚ) (S : Nat) (x : T4) : T4 :=
  fun b c t _ =>
    sq ((∑ i ∈ Finset.range S, (x b c t i - tmeanLast S x b c t 0) ^ 2) / ((S : ℚ) - 1))

/-- `PervasiveLayerNorm`: per-channel affine parameters of shape
`(1, C, 1, 1)` and an epsilon. -/
structure PervasiveLayerNorm where
  eps : ℚ
  gamma : Nat → ℚ
  beta : Nat → ℚ

namespace PervasiveLayerNorm

/-- `PervasiveLayerNorm.__init__(num_features, eps)`: `gamma` is all ones
and `beta` all zeros (their tensors have shape `(1, num_features, 1, 1)`,
which only fixes how many entries are trained). -/
def init (num_features : Nat) (eps : ℚ) : PervasiveLayerNorm :=
  { eps := eps, gamma := fun _ => 1, beta := fun _ => 0 }

/-- `PervasiveLayerNorm.forward(x)` for `x` in `(B, C, Tt, Ts)` layout
with channel extent `C` and last extent `S`; `sq` is the square root used
by `torch.std`. -/
def forward (m : PervasiveLayerNorm) (sq : ℚ → ℚ) (C S : Nat) (x : T4) : T4 :=
  let mean := tmeanLast S (tmean1 C x)
  let std := tstdLast sq S (tstd1 sq C x)
  fun b c t s =>
    m.gamma c * (x b c t s - mean b c t s) / (std b c t s + m.eps) + m.beta c

end PervasiveLayerNorm

/-- `PervasiveBatchNorm`: affine parameters, optional momentum, and the
tracked running statistics.  The three buffers exist exactly when
`track_running_stats` was set at construction, hence the `Option`s. -/
structure PervasiveBatchNorm where
  eps : ℚ
  momentum : Option ℚ
  gamma : Nat → ℚ
  beta : Nat → ℚ
  track_running_stats : Bool
  running_mean : Option T4
  running_std : Option T4
  num_batches_tracked : Option Int

namespace PervasiveBatchNorm

/-- `PervasiveBatchNorm.__init__`: ones/zeros affine parameters; buffers
`running_mean = 0`, `running_std = 1`, `num_batches_tracked = 0`
registered iff `track_running_stats`. -/
def init (num_features : Nat) (track_running_stats : Bool) (eps : ℚ)
    (momentum : Option ℚ) : PervasiveBatchNorm :=
  { eps := eps
    momentum := momentum
    gamma := fun _ => 1
    beta := fun _ => 0
    track_running_stats := track_running_stats
    running_mean := if track_running_stats then some (fun _ _ _ _ => 0) else none
    running_std := if track_running_stats then some (fun _ _ _ _ => 1) else none
    num_batches_tracked := if track_running_stats then some 0 else none }

/-- `PervasiveBatchNorm.forward(x)` for `x` in `(B, C, Tt, Ts)` layout
with batch extent `B`, target extent `T` and last extent `S`.  Reading a
buffer that was never registered raises `AttributeError` in Python, which
is modelled by returning `none`.  The result pairs the output tensor with
the module state after the call. -/
def forward (m : PervasiveBatchNorm) (sq : ℚ → ℚ) (training : Bool)
    (B T S : Nat) (x : T4) : Option (T4 × PervasiveBatchNorm) :=
  if training && m.track_running_stats then
    match m.running_mean, m.running_std, m.num_batches_tracked with
    | some rm, some rs, some nbt =>
      let nbt := nbt + 1
      let mean := tmeanLast S (tmean0 B x)
      let std := tstdLast sq S (tstd0 sq B x)
      let maf : ℚ :=
        match m.momentum with
        | none => 1 / (nbt : ℚ)
        | some mm => mm
      let use_mean : T4 :=
        fun b c t s => (1 - maf) * rm b c t s + maf * mean b c t s
      let use_std : T4 :=
        fun b c t s => (1 - maf) * rs b c t s + maf * std b c t s
      let rm' : T4 :=
        fun b c t s => (1 - maf) * rm b c t s + maf * tmean2 T mean b c t s
      let rs' : T4 :=
        fun b c t s => (1 - maf) * rs b c t s + maf * tmean2 T std b c t s
      let y : T4 :=
        fun b c t s =>
          m.gamma c * (x b c t s - use_mean b c t s) / (use_std b c t s + m.eps)
            + m.beta c
      some (y, { m with running_mean := some rm'
                        running_std := some rs'
                        num_batches_tracked := some nbt })
    | _, _, _ => none
  else
    match m.running_mean, m.running_std with
    | some rm, some rs =>
      let y : T4 :=
        fun b c t s =>
          m.gamma c * (x b c t s - rm b c t s) / (rs b c t s + m.eps) + m.beta c
      some (y, m)
    | _, _ => none

end PervasiveBatchNorm

/-- A throwaway layer used as the out-of-range default of `layerAt`. -/
def dummyLayer : DenseLayer :=
  ⟨false, 0, ⟨0, 0, fun _ _ => 0⟩, ⟨0, 0, fun f _ => f⟩⟩

/-- The `i`-th dense layer of the block (out-of-range indices are never
used in the theorems below). -/
def layerAt (Ls : List DenseLayer) (i : Nat) : DenseLayer :=
  Ls.getD i dummyLayer

/-- Specification-side feature list: the inputs handed to the `i`-th dense
layer, as the spec describes them — the initial feature map followed by
the outputs of layers `0` to `i - 1`, each layer being applied to the
inputs it receives. -/
def specInputs (fdrop : Dropout) (training any_rg : Bool)
    (encoder_mask decoder_mask : Option Mask) (inc : IncrementalState)
    (Ls : List DenseLayer) (x0 : CTensor) : Nat → List CTensor
  | 0 => [x0]
  | i + 1 =>
    specInputs fdrop training any_rg encoder_mask decoder_mask inc Ls x0 i ++
      [(layerAt Ls i).forward fdrop training
        (specInputs fdrop training any_rg encoder_mask decoder_mask inc Ls x0 i)
        any_rg encoder_mask decoder_mask inc]

/-- Specification-side output of the `i`-th dense layer: the layer applied
to the initial feature map followed by the outputs of layers `0..i-1`. -/
def specOut (fdrop : Dropout) (training any_rg : Bool)
    (encoder_mask decoder_mask : Option Mask) (inc : IncrementalState)
    (Ls : List DenseLayer) (x0 : CTensor) (i : Nat) : CTensor :=
  (layerAt Ls i).forward fdrop training
    (specInputs fdrop training any_rg encoder_mask decoder_mask inc Ls x0 i)
    any_rg encoder_mask decoder_mask inc

/-- The mean, as the spec words it: the per-position mean of `x` over the
channel dimension (extent `C`) and then over the last dimension (extent
`S`); it depends only on the batch and target-time position. -/
def specMeanCS (C S : Nat) (x : T4) (b t : Nat) : ℚ :=
  (∑ i ∈ Finset.range S, (∑ j ∈ Finset.range C, x b j t i) / (C : ℚ)) / (S : ℚ)

/-- The standard deviation over the channel dimension, as the spec words
it: the unbiased standard deviation of the `C` channel values at a
position. -/
def specStdC (sq : ℚ → ℚ) (C : Nat) (x : T4) (b t s : Nat) : ℚ :=
  sq ((∑ i ∈ Finset.range C,
        (x b i t s - (∑ j ∈ Finset.range C, x b j t s) / (C : ℚ)) ^ 2) /
      ((C : ℚ) - 1))

/-- The std, as the spec words it: the standard deviation over the channel
dimension, and then the standard deviation of that over the last
dimension. -/
def specStdCS (sq : ℚ → ℚ) (C S : Nat) (x : T4) (b t : Nat) : ℚ :=
  sq ((∑ i ∈ Finset.range S,
        (specStdC sq C x b t i -
          (∑ j ∈ Finset.range S, specStdC sq C x b t j) / (S : ℚ)) ^ 2) /
      ((S : ℚ) - 1))

/-- A dropout function that is the identity (usable since the concrete
layers below have `convolution_dropout = 0`, so it is never reached). -/
def fdropId : Dropout := fun _ _ f => f

/-- A mask that masks every position. -/
def maskAll : Mask := fun _ _ => true

/-- Hyper-parameters with `bn_size * growth_rate = 1` and one layer. -/
def argsC5 : Args :=
  { divide_channels := 1, num_layers := 1, growth_rate := 1
    memory_efficient := false, convolution_dropout := 0, bn_size := 1
    kernel_size := 1, source_dilation := 1, target_dilation := 1 }

/-- A dense layer over one input channel, with weight-1 bottleneck kernel
and an identity masked convolution. -/
def layerC5 : DenseLayer := DenseLayer.init 1 argsC5 (fun _ _ => 1) (fun f _ => f)

/-- A one-channel all-ones input tensor. -/
def xC5 : CTensor := (1, fun _ _ _ _ => 1)

/-- Hyper-parameters with `bn_size * growth_rate = 4`. -/
def argsC4 : Args :=
  { divide_channels := 1, num_layers := 1, growth_rate := 2
    memory_efficient := false, convolution_dropout := 0, bn_size := 2
    kernel_size := 1, source_dilation := 1, target_dilation := 1 }

/-- A two-channel input tensor. -/
def xC4 : CTensor := (2, fun _ _ _ _ => 0)

/-- Hyper-parameters with `divide_channels = 2`, two layers of growth 3. -/
def argsC10 : Args :=
  { divide_channels := 2, num_layers := 2, growth_rate := 3
    memory_efficient := true, convolution_dropout := 0, bn_size := 1
    kernel_size := 1, source_dilation := 1, target_dilation := 1 }

/-- A four-channel input tensor. -/
def xC10 : CTensor := (4, fun _ _ _ _ => 0)

/-- A `PervasiveBatchNorm` constructed with `track_running_stats=True`. -/
def pbnTracked : PervasiveBatchNorm := PervasiveBatchNorm.init 1 true (1 / 2) none

/-- A `PervasiveBatchNorm` constructed with `track_running_stats=False`:
no running-stat buffers are registered. -/
def pbnNoTrack : PervasiveBatchNorm := PervasiveBatchNorm.init 1 false (1 / 2) none

/-! ## Theorems -/

/-- Helper: the dropout step never changes the channel count. -/
theorem channels_dropStep (L : DenseLayer) (fdrop : Dropout) (training : Bool)
    (x : CTensor) : channels (L.dropStep fdrop training x) = channels x := by
  unfold DenseLayer.dropStep channels
  split <;> rfl

/-- C2: `DenseNetNoNorm.forward` performs, in order, the optional channel
reduction, the permutation from `(B, Tt, Ts, C)` to `(B, C, Tt, Ts)`, the
sequential dense-layer loop accumulating the feature list, the
concatenation of all accumulated feature maps along the channel dimension,
and the permutation back to `(B, Tt, Ts, C)`. -/
theorem DenseNetNoNorm.forward_pipeline_order
    (net : DenseNetNoNorm) (fdrop : Dropout) (training any_rg : Bool)
    (x : CTensor) (enc dec : Option Mask) (inc : IncrementalState) :
    net.forward fdrop training any_rg x enc dec inc =
      permute0231 (catAll
        (DenseNetNoNorm.denseLoop fdrop training any_rg enc dec inc
          net.dense_layers [permute0312 (net.applyReduce x)])) := rfl

/-- C3: the checkpointed evaluation of `bottleneck_function` has the same
forward value as the direct call, and consequently `_DenseLayer.forward`
computes the same result whether or not the memory-efficient branch is
taken (the branch only changes what is stored for the backward pass). -/
theorem DenseLayer.checkpoint_forward_value
    (L : DenseLayer) (fdrop : Dropout) (training : Bool)
    (prev : List CTensor) (any_rg : Bool) (enc dec : Option Mask)
    (inc : IncrementalState) :
    cp_checkpoint L.bottleneck_function prev = L.bottleneck_function prev ∧
    L.forward fdrop training prev any_rg enc dec inc =
      ({ L with memory_efficient := false }).forward fdrop training prev
        any_rg enc dec inc := by
  refine ⟨rfl, ?_⟩
  simp [DenseLayer.forward, cp_checkpoint]
  rfl

/-- C8: when the module is not in training mode, `_DenseLayer.forward`
ignores both mask arguments — the output equals the output with no masks
passed at all. -/
theorem DenseLayer.mask_training_only
    (L : DenseLayer) (fdrop : Dropout) (prev : List CTensor) (any_rg : Bool)
    (enc dec : Option Mask) (inc : IncrementalState) :
    L.forward fdrop false prev any_rg enc dec inc =
      L.forward fdrop false prev any_rg none none inc := rfl

/-- C5 (amended): after the bottleneck result, `_DenseLayer.forward`
applies, in order: ReLU, the masking step (which zeroes the masked
positions only when a mask is provided and the module is in training
mode), the spatial masked convolution `mconv2`, and the dropout step
(which calls `F.dropout` exactly when `drop_rate` is nonzero); the layer
returns only the newly produced `growth_rate`-channel feature map. -/
theorem DenseLayer.therest_order
    (L : DenseLayer) (fdrop : Dropout) (training : Bool)
    (prev : List CTensor) (any_rg : Bool) (enc dec : Option Mask)
    (inc : IncrementalState) :
    L.forward fdrop training prev any_rg enc dec inc =
      L.dropStep fdrop training
        (L.mconv2.apply
          (DenseLayer.maskStep training enc dec
            (reluC (L.bottleneck_function prev))) inc) ∧
    channels (L.forward fdrop training prev any_rg enc dec inc) =
      L.mconv2.out_channels := by
  constructor
  · simp [DenseLayer.forward, cp_checkpoint]
  · show channels (L.dropStep _ _ _) = _
    rw [channels_dropStep]
    rfl

/-- C5 (counterexample): the claim as stated says the masking step zeroes
the masked positions whenever a mask is provided; but in evaluation mode
(`training = false`), with an all-true encoder mask provided, the forward
output differs from the pipeline that applies the mask unconditionally. -/
theorem DenseLayer.mask_eval_cex :
    data (layerC5.forward fdropId false [xC5] false (some maskAll) none none)
        0 0 0 0 ≠
      data (layerC5.dropStep fdropId false
        (layerC5.mconv2.apply
          (DenseLayer.maskUncond (some maskAll) none
            (reluC (layerC5.bottleneck_function [xC5]))) none)) 0 0 0 0 := by
  norm_num [layerC5, argsC5, xC5, fdropId, maskAll, data, channels,
    DenseLayer.forward, DenseLayer.init, DenseLayer.bottleneck_function,
    DenseLayer.maskStep, DenseLayer.dropStep, DenseLayer.maskUncond,
    cp_checkpoint, Conv1x1.apply, MaskedConvolution.apply, reluC, relu4,
    catAll, maskedFillEnc, Finset.sum_range_one]

/-- C6: `DenseNetNoNorm.__init__` builds `reduce_channels` as a linear map
from `num_init_features` to `num_init_features // divide_channels`
channels exactly when `args.divide_channels > 1`, and otherwise it is
`None`; correspondingly the reduction step of `forward` applies that
linear map when `divide_channels > 1` and passes the input through
unchanged otherwise. -/
theorem DenseNetNoNorm.reduce_channels_iff
    (nif : Nat) (args : Args) (lw : Nat → Nat → ℚ)
    (ws : Nat → Nat → Nat → ℚ) (mcfs : Nat → T4 → IncrementalState → T4)
    (x : CTensor) :
    (DenseNetNoNorm.init nif args lw ws mcfs).reduce_channels =
      (if 1 < args.divide_channels then
        some (Linear nif (nif / args.divide_channels) lw) else none) ∧
    (DenseNetNoNorm.init nif args lw ws mcfs).applyReduce x =
      (if 1 < args.divide_channels then
        (Linear nif (nif / args.divide_channels) lw).apply x else x) := by
  constructor
  · rfl
  · by_cases h : 1 < args.divide_channels <;>
      simp [DenseNetNoNorm.init, DenseNetNoNorm.applyReduce, h]

/-- C4 (amended): `bottleneck_function` is the composition — concatenate
the inputs along the channel dimension, apply ReLU, apply the 1x1
convolution `conv1`; `conv1` maps `num_input_features` input channels to
`bn_size * growth_rate` output channels (which need not be smaller than
the input channel count). -/
theorem DenseLayer.bottleneck_composition
    (nif : Nat) (args : Args) (w : Nat → Nat → ℚ)
    (mcf : T4 → IncrementalState → T4) (inputs : List CTensor) :
    (DenseLayer.init nif args w mcf).bottleneck_function inputs =
      (DenseLayer.init nif args w mcf).conv1.apply (reluC (catAll inputs)) ∧
    (DenseLayer.init nif args w mcf).conv1.out_channels =
      args.bn_size * args.growth_rate ∧
    (DenseLayer.init nif args w mcf).conv1.in_channels = nif :=
  ⟨rfl, rfl, rfl⟩

/-- C4 (counterexample): the claim says `conv1` is channel-reducing, i.e.
`bn_size * growth_rate` is smaller than the summed channel count of the
concatenated previous features; with `bn_size = 2`, `growth_rate = 2` and
a single two-channel previous feature, the output channel count is 4 and
the input channel count is 2, so the inequality fails. -/
theorem DenseLayer.bottleneck_not_reducing_cex :
    ¬ ((DenseLayer.init 2 argsC4 (fun _ _ => 1) (fun f _ => f)).conv1.out_channels <
        channels (catAll [xC4])) := by
  decide

/-- C7: `PervasiveLayerNorm.forward` returns
`gamma * (x - mean) / (std + eps) + beta`, with the mean taken over the
channel dimension and then the last dimension (a per-`(b, t)` value, i.e.
shape `(B, 1, Tt, 1)`), the std taken over the channel dimension and then
the std of that over the last dimension, and with `gamma` and `beta`
initialized to ones and zeros. -/
theorem PervasiveLayerNorm.forward_formula
    (num_features : Nat) (eps : ℚ) (sq : ℚ → ℚ) (C S : Nat) (x : T4)
    (m : PervasiveLayerNorm) (b c t s : Nat) :
    m.forward sq C S x b c t s =
      m.gamma c * (x b c t s - specMeanCS C S x b t) /
        (specStdCS sq C S x b t + m.eps) + m.beta c ∧
    (PervasiveLayerNorm.init num_features eps).gamma c = 1 ∧
    (PervasiveLayerNorm.init num_features eps).beta c = 0 := by
  refine ⟨?_, rfl, rfl⟩
  simp [PervasiveLayerNorm.forward, specMeanCS, specStdCS, specStdC,
    tmean1, tmeanLast, tstd1, tstdLast]

/-- C9 (amended): `PervasiveBatchNorm.forward` mutates the tracked state
only when both `training` and `track_running_stats` hold; in every other
call in which the running-stat buffers exist, the module state is returned
unchanged and the input is normalized with the stored `running_mean` and
`running_std` as-is. -/
theorem PervasiveBatchNorm.frame_no_mutation
    (m : PervasiveBatchNorm) (sq : ℚ → ℚ) (training : Bool) (B T S : Nat)
    (x rm rs : T4)
    (hmode : (training && m.track_running_stats) = false)
    (hm : m.running_mean = some rm) (hs : m.running_std = some rs) :
    m.forward sq training B T S x =
      some ((fun b c t s =>
        m.gamma c * (x b c t s - rm b c t s) / (rs b c t s + m.eps) +
          m.beta c), m) := by
  unfold PervasiveBatchNorm.forward
  rw [hmode]
  simp [hm, hs]

/-- Witness for C9 (amended): a freshly constructed tracked module in
evaluation mode normalizes with the zero running mean and unit running
std and is returned unchanged. -/
theorem PervasiveBatchNorm.frame_no_mutation_witness :
    pbnTracked.forward (fun q => q) false 1 1 1 (fun _ _ _ _ => 2) =
      some ((fun b c t s =>
        pbnTracked.gamma c *
            ((fun _ _ _ _ => (2 : ℚ)) b c t s - (fun _ _ _ _ => (0 : ℚ)) b c t s) /
            ((fun _ _ _ _ => (1 : ℚ)) b c t s + pbnTracked.eps) +
          pbnTracked.beta c), pbnTracked) :=
  PervasiveBatchNorm.frame_no_mutation pbnTracked (fun q => q) false 1 1 1
    (fun _ _ _ _ => 2) (fun _ _ _ _ => 0) (fun _ _ _ _ => 1) rfl rfl rfl

/-- C9 (counterexample): with `track_running_stats=False` no buffers are
registered, so a non-tracking evaluation call does not normalize with
stored statistics — it fails (an `AttributeError` on `running_mean`,
modelled as `none`). -/
theorem PervasiveBatchNorm.untracked_forward_cex :
    pbnNoTrack.forward (fun q => q) false 1 1 1 (fun _ _ _ _ => 0) = none := rfl

/-- Helper: processing the layers from position `j` onward, starting from
the features the first `j` layers produced, yields the full feature list.
In particular the layer at position `j` is applied to exactly
`specInputs j`. -/
theorem denseLoop_eq_specInputs (fdrop : Dropout) (training any_rg : Bool)
    (enc dec : Option Mask) (inc : IncrementalState)
    (Ls : List DenseLayer) (x0 : CTensor) :
    ∀ n j, j + n = Ls.length →
      DenseNetNoNorm.denseLoop fdrop training any_rg enc dec inc (Ls.drop j)
        (specInputs fdrop training any_rg enc dec inc Ls x0 j) =
      specInputs fdrop training any_rg enc dec inc Ls x0 Ls.length := by
  intro n
  induction n with
  | zero =>
    intro j hj
    rw [Nat.add_zero] at hj
    rw [hj, List.drop_length]
    rfl
  | succ n ih =>
    intro j hj
    have hlt : j < Ls.length := by omega
    rw [List.drop_eq_getElem_cons hlt]
    show DenseNetNoNorm.denseLoop fdrop training any_rg enc dec inc
        (Ls.drop (j + 1))
        (specInputs fdrop training any_rg enc dec inc Ls x0 j ++
          [Ls[j].forward fdrop training
            (specInputs fdrop training any_rg enc dec inc Ls x0 j)
            any_rg enc dec inc]) = _
    have hlayer : Ls[j] = layerAt Ls j := (List.getD_eq_getElem Ls dummyLayer hlt).symm
    rw [hlayer]
    exact ih (j + 1) (by omega)

/-- Helper: the features available to the layer at position `i` are the
initial feature map followed by the outputs of layers `0` to `i - 1`. -/
theorem specInputs_eq_cons_outputs (fdrop : Dropout) (training any_rg : Bool)
    (enc dec : Option Mask) (inc : IncrementalState)
    (Ls : List DenseLayer) (x0 : CTensor) (i : Nat) :
    specInputs fdrop training any_rg enc dec inc Ls x0 i =
      x0 :: (List.range i).map (specOut fdrop training any_rg enc dec inc Ls x0) := by
  induction i with
  | zero => rfl
  | succ i ih =>
    show specInputs fdrop training any_rg enc dec inc Ls x0 i ++
        [(layerAt Ls i).forward fdrop training
          (specInputs fdrop training any_rg enc dec inc Ls x0 i)
          any_rg enc dec inc] =
      x0 :: (List.range (i + 1)).map
        (specOut fdrop training any_rg enc dec inc Ls x0)
    rw [List.range_succ, List.map_append]
    show _ = x0 ::
      ((List.range i).map (specOut fdrop training any_rg enc dec inc Ls x0) ++
        [(layerAt Ls i).forward fdrop training
          (specInputs fdrop training any_rg enc dec inc Ls x0 i)
          any_rg enc dec inc])
    rw [ih]
    rfl

/-- C1: in every forward pass of `DenseNetNoNorm`, the `i`-th dense layer
receives as input exactly the initial (post-reduction, permuted) feature
map followed by the outputs of layers `0` through `i - 1` (that is the
list `specInputs i`, and the loop realises exactly that list), and the
block's result is the channel-dimension concatenation of all
`num_layers + 1` feature maps — the initial map plus every layer output. -/
theorem DenseNetNoNorm.dense_connectivity
    (net : DenseNetNoNorm) (fdrop : Dropout) (training any_rg : Bool)
    (x : CTensor) (enc dec : Option Mask) (inc : IncrementalState) :
    net.forward fdrop training any_rg x enc dec inc =
      permute0231 (catAll
        (specInputs fdrop training any_rg enc dec inc net.dense_layers
          (permute0312 (net.applyReduce x)) net.dense_layers.length)) ∧
    (∀ i, specInputs fdrop training any_rg enc dec inc net.dense_layers
        (permute0312 (net.applyReduce x)) i =
      permute0312 (net.applyReduce x) ::
        (List.range i).map (specOut fdrop training any_rg enc dec inc
          net.dense_layers (permute0312 (net.applyReduce x)))) ∧
    (specInputs fdrop training any_rg enc dec inc net.dense_layers
        (permute0312 (net.applyReduce x)) net.dense_layers.length).length =
      net.dense_layers.length + 1 := by
  refine ⟨?_, ?_, ?_⟩
  · show permute0231 (catAll (DenseNetNoNorm.denseLoop fdrop training any_rg
      enc dec inc net.dense_layers [permute0312 (net.applyReduce x)])) = _
    have h0 := denseLoop_eq_specInputs fdrop training any_rg enc dec inc
      net.dense_layers (permute0312 (net.applyReduce x))
      net.dense_layers.length 0 (by omega)
    rw [List.drop_zero] at h0
    rw [show specInputs fdrop training any_rg enc dec inc net.dense_layers
        (permute0312 (net.applyReduce x)) 0 =
        [permute0312 (net.applyReduce x)] from rfl] at h0
    rw [h0]
  · exact specInputs_eq_cons_outputs fdrop training any_rg enc dec inc
      net.dense_layers (permute0312 (net.applyReduce x))
  · rw [specInputs_eq_cons_outputs]
    simp

/-- Helper: concatenation along the channel dimension sums the channel
counts. -/
theorem channels_catAll (l : List CTensor) :
    channels (catAll l) = (l.map channels).sum := by
  induction l with
  | nil => rfl
  | cons x xs ih =>
    cases xs with
    | nil => simp [catAll, channels]
    | cons y rest =>
      show channels (cat1 x (catAll (y :: rest))) = _
      simp only [List.map_cons, List.sum_cons] at ih ⊢
      show x.1 + channels (catAll (y :: rest)) = _
      rw [ih]
      rfl

/-- Helper: a dense layer always outputs a feature map with its
`mconv2.out_channels` channels. -/
theorem channels_forward (L : DenseLayer) (fdrop : Dropout) (training : Bool)
    (prev : List CTensor) (any_rg : Bool) (enc dec : Option Mask)
    (inc : IncrementalState) :
    channels (L.forward fdrop training prev any_rg enc dec inc) =
      L.mconv2.out_channels := by
  show channels (L.dropStep _ _ _) = _
  rw [channels_dropStep]
  rfl

/-- Helper: the channel counts of the features accumulated by the loop are
those of the starting features followed by each layer's `mconv2` output
channel count. -/
theorem denseLoop_channels (fdrop : Dropout) (training any_rg : Bool)
    (enc dec : Option Mask) (inc : IncrementalState) :
    ∀ (Ls : List DenseLayer) (acc : List CTensor),
      (DenseNetNoNorm.denseLoop fdrop training any_rg enc dec inc Ls acc).map
          channels =
        acc.map channels ++ Ls.map (fun L => L.mconv2.out_channels) := by
  intro Ls
  induction Ls with
  | nil => intro acc; simp [DenseNetNoNorm.denseLoop]
  | cons L rest ih =>
    intro acc
    show (DenseNetNoNorm.denseLoop fdrop training any_rg enc dec inc rest
        (acc ++ [L.forward fdrop training acc any_rg enc dec inc])).map channels = _
    rw [ih]
    simp [channels_forward]

/-- Helper: the construction loop's final feature count is the starting
count plus `n * growth_rate`. -/
theorem buildLayers_snd (args : Args) (ws : Nat → Nat → Nat → ℚ)
    (mcfs : Nat → T4 → IncrementalState → T4) :
    ∀ (n i0 nf : Nat),
      (DenseNetNoNorm.buildLayers args ws mcfs i0 nf n).2 =
        nf + n * args.growth_rate := by
  intro n
  induction n with
  | zero => intro i0 nf; simp [DenseNetNoNorm.buildLayers]
  | succ n ih =>
    intro i0 nf
    show (DenseNetNoNorm.buildLayers args ws mcfs (i0 + 1)
        (nf + args.growth_rate) n).2 = _
    rw [ih]
    ring

/-- Helper: every layer the construction loop builds produces
`growth_rate` output channels. -/
theorem buildLayers_out_channels (args : Args) (ws : Nat → Nat → Nat → ℚ)
    (mcfs : Nat → T4 → IncrementalState → T4) :
    ∀ (n i0 nf : Nat),
      ((DenseNetNoNorm.buildLayers args ws mcfs i0 nf n).1.map
          (fun L => L.mconv2.out_channels)) =
        List.replicate n args.growth_rate := by
  intro n
  induction n with
  | zero => intro i0 nf; rfl
  | succ n ih =>
    intro i0 nf
    show (DenseLayer.init nf args (ws i0) (mcfs i0)).mconv2.out_channels ::
        ((DenseNetNoNorm.buildLayers args ws mcfs (i0 + 1)
          (nf + args.growth_rate) n).1.map (fun L => L.mconv2.out_channels)) = _
    rw [ih]
    rfl

/-- C10: after `DenseNetNoNorm.__init__` (over the faithful domain
`divide_channels ≥ 1`; `divide_channels = 0` makes the Python constructor
raise `ZeroDivisionError`), the invariant
`output_channels = num_init_features // divide_channels +
num_layers * growth_rate` holds, and every forward output on an input
with `num_init_features` channels has exactly `output_channels` channels
in its (last) channel dimension. -/
theorem DenseNetNoNorm.output_channels_invariant
    (nif : Nat) (args : Args) (lw : Nat → Nat → ℚ)
    (ws : Nat → Nat → Nat → ℚ) (mcfs : Nat → T4 → IncrementalState → T4)
    (fdrop : Dropout) (training any_rg : Bool) (x : CTensor)
    (enc dec : Option Mask) (inc : IncrementalState)
    (hd : 1 ≤ args.divide_channels) (hx : channels x = nif) :
    (DenseNetNoNorm.init nif args lw ws mcfs).output_channels =
      nif / args.divide_channels + args.num_layers * args.growth_rate ∧
    channels ((DenseNetNoNorm.init nif args lw ws mcfs).forward fdrop
        training any_rg x enc dec inc) =
      (DenseNetNoNorm.init nif args lw ws mcfs).output_channels := by
  have houtc : (DenseNetNoNorm.init nif args lw ws mcfs).output_channels =
      nif / args.divide_channels + args.num_layers * args.growth_rate := by
    show (DenseNetNoNorm.buildLayers args ws mcfs 0
        (nif / args.divide_channels) args.num_layers).2 = _
    rw [buildLayers_snd]
  refine ⟨houtc, ?_⟩
  have hred : channels ((DenseNetNoNorm.init nif args lw ws mcfs).applyReduce x) =
      nif / args.divide_channels := by
    by_cases h : 1 < args.divide_channels
    · show channels (DenseNetNoNorm.applyReduce _ x) = _
      simp [DenseNetNoNorm.applyReduce, DenseNetNoNorm.init, h, NNLinear.apply,
        Linear, channels]
    · have hd1 : args.divide_channels = 1 := by omega
      show channels (DenseNetNoNorm.applyReduce _ x) = _
      simp [DenseNetNoNorm.applyReduce, DenseNetNoNorm.init, h, hd1, hx,
        Nat.div_one]
  show channels (catAll (DenseNetNoNorm.denseLoop fdrop training any_rg enc
      dec inc (DenseNetNoNorm.init nif args lw ws mcfs).dense_layers
      [permute0312 ((DenseNetNoNorm.init nif args lw ws mcfs).applyReduce x)])) = _
  rw [channels_catAll, denseLoop_channels]
  rw [show (DenseNetNoNorm.init nif args lw ws mcfs).dense_layers =
      (DenseNetNoNorm.buildLayers args ws mcfs 0 (nif / args.divide_channels)
        args.num_layers).1 from rfl]
  rw [buildLayers_out_channels]
  rw [houtc]
  have hperm : List.map channels
      [permute0312 ((DenseNetNoNorm.init nif args lw ws mcfs).applyReduce x)] =
      [nif / args.divide_channels] := by
    rw [List.map_cons, List.map_nil]
    rw [show channels
        (permute0312 ((DenseNetNoNorm.init nif args lw ws mcfs).applyReduce x)) =
        channels ((DenseNetNoNorm.init nif args lw ws mcfs).applyReduce x)
        from rfl, hred]
  rw [hperm]
  simp [List.sum_replicate, smul_eq_mul]

/-- Witness for C10: with `num_init_features = 4`, `divide_channels = 2`,
two layers of growth 3, the block reports and produces
`4 // 2 + 2 * 3 = 8` output channels. -/
theorem DenseNetNoNorm.output_channels_invariant_witness :
    (DenseNetNoNorm.init 4 argsC10 (fun _ _ => 0) (fun _ _ _ => 0)
        (fun _ f _ => f)).output_channels =
      4 / argsC10.divide_channels + argsC10.num_layers * argsC10.growth_rate ∧
    channels ((DenseNetNoNorm.init 4 argsC10 (fun _ _ => 0) (fun _ _ _ => 0)
        (fun _ f _ => f)).forward fdropId false false xC10 none none none) =
      (DenseNetNoNorm.init 4 argsC10 (fun _ _ => 0) (fun _ _ _ => 0)
        (fun _ f _ => f)).output_channels :=
  DenseNetNoNorm.output_channels_invariant 4 argsC10 (fun _ _ => 0)
    (fun _ _ _ => 0) (fun _ f _ => f) fdropId false false xC10 none none none
    (by decide) rfl
